import Mathlib

/-!
Verification development for the kuukan compile-time algebra-composition
library (C++20). The library composes abstract structures out of injected
operation functors:

* `VectorSpace<Element, Scalar, Addition, ScalarAction, Negation,
  ZeroSupplier, Equality>` stores one instance of each functor and derives
  `difference(a, b) = addition(a, negation(b))`
  (include/kuukan/vector/vector_space.hpp).
* `MetricSpace<Element, Distance>` stores one distance functor and exposes
  `dist(a, b) = distance(a, b)` (include/kuukan/metric/metric_space.hpp).
* `NormedSpace<VS, NormFunction>` inherits every member of a
  vector-space-like `VS`, stores a norm functor, builds an internal
  `InducedDistance` functor computing `norm(VS::difference(a, b))`, feeds it
  into `MetricSpace`, and exposes `distance(a, b) = metric_space::dist(a, b)`
  (include/kuukan/norm/normed_space.hpp).

The embedding has two levels.

The SEMANTIC level models a composed structure as a record of the injected
operations (one field per stored functor instance; C++ functors are pure, so
each instance is a Lean function) and every derived static member function as
a Lean definition on that record, transcribed from the member's body.

The SHAPE level models the C++20 concept checks (`FieldLike`,
`OrderedMeasure`, `CallableLike`, `VectorSpaceLike`, `MetricSpaceLike`) and
the template `requires` clauses. C++ types are reified as descriptors
recording which operators a type offers and with which result type; functors
are reified as a parameter-type list plus an invocation-result descriptor.
Type identity is modelled by name (distinct types are given distinct names),
`std::same_as` by name equality, `std::convertible_to` by name equality or
membership in the descriptor's recorded implicit conversions, and
invocability by exact match of the reified parameter list (the model keeps
one call signature per functor, which covers every functor in the
repository). Template instantiation becomes a composer function returning
`Option`: `some` is a well-formed instantiation, `none` is the hard
rejection at definition time.
-/

namespace Kuukan

/-! ## Semantic level -/

/-- The composed `VectorSpace` structure: one stored instance of each of the
five injected operation functors (vector_space.hpp, lines 120-132). The C++
`ZeroSupplier` is a nullary functor, modelled as a function from `Unit`. -/
structure VectorSpace (Element Scalar : Type) where
  addition : Element → Element → Element
  scalar_action : Scalar → Element → Element
  negation : Element → Element
  zero_supplier : Unit → Element
  equality : Element → Element → Bool

/-- `VectorSpace::difference` (vector_space.hpp, lines 147-150):
`addition(element_left, negation(element_right))`. It is a derived static
member, not a stored functor, so it is a definition rather than a field. -/
def VectorSpace.difference {Element Scalar : Type}
    (VS : VectorSpace Element Scalar)
    (element_left element_right : Element) : Element :=
  VS.addition element_left (VS.negation element_right)

/-- The duck-typed shape a type must expose to satisfy the `VectorSpaceLike`
concept (vector_space.hpp, lines 170-182): the five named operation holders
plus a `difference` entry point from two elements to an element. A composed
`VectorSpace` matches this shape; so does any independently-authored type,
whose `difference` need not be derived from its `addition` and `negation`. -/
structure VectorSpaceLikeStruct (Element Scalar : Type) where
  addition : Element → Element → Element
  scalar_action : Scalar → Element → Element
  negation : Element → Element
  zero_supplier : Unit → Element
  equality : Element → Element → Bool
  difference : Element → Element → Element

/-- A composed `VectorSpace` viewed through the `VectorSpaceLike` shape: its
exposed `difference` entry point is the derived one. -/
def VectorSpace.asLike {Element Scalar : Type}
    (VS : VectorSpace Element Scalar) : VectorSpaceLikeStruct Element Scalar :=
  { addition := VS.addition
    scalar_action := VS.scalar_action
    negation := VS.negation
    zero_supplier := VS.zero_supplier
    equality := VS.equality
    difference := VS.difference }

/-- The composed `MetricSpace` structure: the one stored instance of the
injected distance functor (metric_space.hpp, line 81). -/
structure MetricSpace (Element Measure : Type) where
  distance : Element → Element → Measure

/-- `MetricSpace::dist` (metric_space.hpp, lines 96-99): invocation of the
stored `distance` functor instance. -/
def MetricSpace.dist {Element Measure : Type}
    (M : MetricSpace Element Measure)
    (element_left element_right : Element) : Measure :=
  M.distance element_left element_right

/-- The composed `NormedSpace` structure (normed_space.hpp, lines 89-147):
the inherited vector-space-like base subobject `VS` plus the one stored
instance of the injected norm functor. -/
structure NormedSpace (Element Scalar Measure : Type) where
  VS : VectorSpaceLikeStruct Element Scalar
  norm : Element → Measure

/-- `NormedSpace::addition`, inherited unmodified from the base `VS`. -/
def NormedSpace.addition {Element Scalar Measure : Type}
    (N : NormedSpace Element Scalar Measure) : Element → Element → Element :=
  N.VS.addition

/-- `NormedSpace::scalar_action`, inherited unmodified from the base `VS`. -/
def NormedSpace.scalar_action {Element Scalar Measure : Type}
    (N : NormedSpace Element Scalar Measure) : Scalar → Element → Element :=
  N.VS.scalar_action

/-- `NormedSpace::negation`, inherited unmodified from the base `VS`. -/
def NormedSpace.negation {Element Scalar Measure : Type}
    (N : NormedSpace Element Scalar Measure) : Element → Element :=
  N.VS.negation

/-- `NormedSpace::zero_supplier`, inherited unmodified from the base `VS`. -/
def NormedSpace.zero_supplier {Element Scalar Measure : Type}
    (N : NormedSpace Element Scalar Measure) : Unit → Element :=
  N.VS.zero_supplier

/-- `NormedSpace::equality`, inherited unmodified from the base `VS`. -/
def NormedSpace.equality {Element Scalar Measure : Type}
    (N : NormedSpace Element Scalar Measure) : Element → Element → Bool :=
  N.VS.equality

/-- `NormedSpace::difference`, inherited unmodified from the base `VS`
(whatever entry point `VS` exposes under that name). -/
def NormedSpace.difference {Element Scalar Measure : Type}
    (N : NormedSpace Element Scalar Measure) : Element → Element → Element :=
  N.VS.difference

/-- `NormedSpace::InducedDistance::operator()` (normed_space.hpp, lines
111-123): `norm(VS::difference(element_left, element_right))`. -/
def NormedSpace.InducedDistance {Element Scalar Measure : Type}
    (N : NormedSpace Element Scalar Measure)
    (element_left element_right : Element) : Measure :=
  N.norm (N.VS.difference element_left element_right)

/-- `NormedSpace::metric_space` (normed_space.hpp, line 126): the
`MetricSpace` built from the element type and the `InducedDistance`
functor. -/
def NormedSpace.metric_space {Element Scalar Measure : Type}
    (N : NormedSpace Element Scalar Measure) : MetricSpace Element Measure :=
  { distance := N.InducedDistance }

/-- `NormedSpace::distance` (normed_space.hpp, lines 143-146):
`metric_space::dist(element_left, element_right)`. -/
def NormedSpace.distance {Element Scalar Measure : Type}
    (N : NormedSpace Element Scalar Measure)
    (element_left element_right : Element) : Measure :=
  N.metric_space.dist element_left element_right

/-- Claim C1: for every NormedSpace composed from a vector-space-like
structure VS and a norm operation N, and for every pair of elements a and b,
`NormedSpace::distance(a, b)` equals N applied to `VS::difference(a, b)`:
the distance is mechanically derived as norm-of-difference. -/
theorem normed_distance_eq_norm_of_difference
    (Element Scalar Measure : Type)
    (VS : VectorSpaceLikeStruct Element Scalar) (N : Element → Measure)
    (a b : Element) :
    (NormedSpace.mk VS N).distance a b = N (VS.difference a b) := rfl

/-- Claim C2: for every VectorSpace composed from any element type, scalar
type, and five operations, and for every pair of elements a and b,
`difference(a, b)` returns exactly the value of `addition(a, negation(b))`. -/
theorem difference_eq_addition_of_negation
    (Element Scalar : Type) (VS : VectorSpace Element Scalar)
    (a b : Element) :
    VS.difference a b = VS.addition a (VS.negation b) := rfl

/-- Claim C3: every entry point among addition, scalar_action, negation,
zero_supplier, equality and difference of a composed NormedSpace behaves
identically to the corresponding entry point of the input vector-space-like
structure VS on every input. -/
theorem normed_space_reexposes_vector_ops
    (Element Scalar Measure : Type)
    (VS : VectorSpaceLikeStruct Element Scalar) (N : Element → Measure)
    (a b : Element) (s : Scalar) (u : Unit) :
    (NormedSpace.mk VS N).addition a b = VS.addition a b ∧
    (NormedSpace.mk VS N).scalar_action s a = VS.scalar_action s a ∧
    (NormedSpace.mk VS N).negation a = VS.negation a ∧
    (NormedSpace.mk VS N).zero_supplier u = VS.zero_supplier u ∧
    (NormedSpace.mk VS N).equality a b = VS.equality a b ∧
    (NormedSpace.mk VS N).difference a b = VS.difference a b :=
  ⟨rfl, rfl, rfl, rfl, rfl, rfl⟩

/-- Claim C6: for every MetricSpace composed from an element type and a
distance operation, `dist(a, b)` returns exactly the same value as
`distance(a, b)`; both dispatch to the single stored distance instance. -/
theorem metric_dist_eq_distance
    (Element Measure : Type) (M : MetricSpace Element Measure)
    (a b : Element) :
    M.dist a b = M.distance a b := rfl

/-! ## Example client: minimal_function_space.cpp

The example's scalar type is `double` and its norm also returns `double`.
The claims under verification never evaluate an evaluator and never perform
`double` arithmetic (the only measure value produced is the literal `0.0`,
which is exact), so the double carrier is kept as an abstract type `D` with
the arithmetic the example's lambdas use, and `std::to_string` (used only in
the scalar-action label) is an abstract formatting function `toStr`. -/

/-- `RealFunctionElement` (minimal_function_space.cpp, lines 30-36): an
evaluator together with a symbolic identity label. -/
structure RealFunctionElement (D : Type) where
  evaluator : D → D
  symbolic_identity : String

/-- `FunctionAddition::operator()` (minimal_function_space.cpp, lines
46-56): pointwise sum, label concatenated as "(L + R)". -/
def FunctionAddition {D : Type} [Add D]
    (function_left function_right : RealFunctionElement D) :
    RealFunctionElement D :=
  { evaluator := fun x => function_left.evaluator x + function_right.evaluator x
    symbolic_identity :=
      "(" ++ function_left.symbolic_identity ++ " + " ++
        function_right.symbolic_identity ++ ")" }

/-- `FunctionScalarAction::operator()` (minimal_function_space.cpp, lines
64-81): pointwise scaling, label "(s * L)" with `s` formatted by
`std::to_string`, here the abstract `toStr`. -/
def FunctionScalarAction {D : Type} [Mul D] (toStr : D → String)
    (scalar_value : D) (function_value : RealFunctionElement D) :
    RealFunctionElement D :=
  { evaluator := fun x => scalar_value * function_value.evaluator x
    symbolic_identity :=
      "(" ++ toStr scalar_value ++ " * " ++
        function_value.symbolic_identity ++ ")" }

/-- `FunctionNegation::operator()` (minimal_function_space.cpp, lines
89-98): pointwise negation, label "(-L)". -/
def FunctionNegation {D : Type} [Neg D]
    (function_value : RealFunctionElement D) : RealFunctionElement D :=
  { evaluator := fun x => -function_value.evaluator x
    symbolic_identity := "(-" ++ function_value.symbolic_identity ++ ")" }

/-- `FunctionZeroSupplier::operator()` (minimal_function_space.cpp, lines
105-117): the constant-zero function with label "0". -/
def FunctionZeroSupplier {D : Type} [Zero D]
    (_ : Unit) : RealFunctionElement D :=
  { evaluator := fun _ => 0
    symbolic_identity := "0" }

/-- `FunctionEquality::operator()` (minimal_function_space.cpp, lines
126-131): comparison of the symbolic identity labels. -/
def FunctionEquality {D : Type}
    (function_left function_right : RealFunctionElement D) : Bool :=
  function_left.symbolic_identity == function_right.symbolic_identity

/-- `FunctionVectorSpace` (minimal_function_space.cpp, lines 143-151): the
VectorSpace composed from the five function-space operation functors. -/
def FunctionVectorSpace (D : Type) [Add D] [Mul D] [Neg D] [Zero D]
    (toStr : D → String) : VectorSpace (RealFunctionElement D) D :=
  { addition := FunctionAddition
    scalar_action := FunctionScalarAction toStr
    negation := FunctionNegation
    zero_supplier := FunctionZeroSupplier
    equality := FunctionEquality }

/-- `SupNormPlaceholder::operator()` (minimal_function_space.cpp, lines
169-181): the placeholder norm, returning `0.0` for every element. -/
def SupNormPlaceholder {D : Type} [Zero D]
    (_ : RealFunctionElement D) : D := 0

/-- `FunctionSupNormedSpace` (minimal_function_space.cpp, line 193): the
NormedSpace composed from `FunctionVectorSpace` and `SupNormPlaceholder`. -/
def FunctionSupNormedSpace (D : Type) [Add D] [Mul D] [Neg D] [Zero D]
    (toStr : D → String) : NormedSpace (RealFunctionElement D) D D :=
  { VS := (FunctionVectorSpace D toStr).asLike
    norm := SupNormPlaceholder }

/-- `sin_function` (minimal_function_space.cpp, lines 203-206): the element
with label "sin"; the evaluator (`std::sin`) stays abstract. -/
def sin_function {D : Type} (sinEval : D → D) : RealFunctionElement D :=
  { evaluator := sinEval, symbolic_identity := "sin" }

/-- `cos_function` (minimal_function_space.cpp, lines 207-210): the element
with label "cos"; the evaluator (`std::cos`) stays abstract. -/
def cos_function {D : Type} (cosEval : D → D) : RealFunctionElement D :=
  { evaluator := cosEval, symbolic_identity := "cos" }

/-- Claim C7: a NormedSpace built with a constant-zero norm has
`distance(a, b) = 0` for every pair of elements, equal or not; in
particular, in the example function space with the placeholder zero norm,
`distance(sin, cos)` and `distance(sin, sin)` both equal 0 exactly, both
through the same derived-metric path. -/
theorem zero_norm_gives_zero_distance :
    (∀ (Element Scalar Measure : Type) [Zero Measure]
        (VS : VectorSpaceLikeStruct Element Scalar) (N : Element → Measure),
        (∀ x, N x = 0) →
        ∀ a b, (NormedSpace.mk VS N).distance a b = 0) ∧
    (∀ (D : Type) [Add D] [Mul D] [Neg D] [Zero D] (toStr : D → String)
        (sinEval cosEval : D → D),
        (FunctionSupNormedSpace D toStr).distance
            (sin_function sinEval) (cos_function cosEval) = 0 ∧
        (FunctionSupNormedSpace D toStr).distance
            (sin_function sinEval) (sin_function sinEval) = 0) := by
  constructor
  · intro Element Scalar Measure _ VS N h a b
    exact h (VS.difference a b)
  · intro D _ _ _ _ toStr sinEval cosEval
    exact ⟨rfl, rfl⟩

/-- Claim C7, instantiated: the closed example over the rational carrier,
obtained by applying the general theorem at concrete inputs. -/
theorem zero_norm_gives_zero_distance_example :
    (FunctionSupNormedSpace ℚ (fun _ => "")).distance
        (sin_function id) (cos_function id) = 0 ∧
    (NormedSpace.mk (FunctionVectorSpace ℚ (fun _ => "")).asLike
        (SupNormPlaceholder (D := ℚ))).distance
        (sin_function id) (cos_function id) = 0 :=
  ⟨(zero_norm_gives_zero_distance.2 ℚ (fun _ => "") id id).1,
   zero_norm_gives_zero_distance.1 (RealFunctionElement ℚ) ℚ ℚ
     (FunctionVectorSpace ℚ (fun _ => "")).asLike
     (SupNormPlaceholder (D := ℚ)) (fun _ => rfl)
     (sin_function id) (cos_function id)⟩

/-- Claim C8: in the example function space, with the elements labelled
"sin" and "cos": addition yields the label "(sin + cos)", negation of cos
yields "(-cos)", equality holds between two identical sums, and equality
fails between sin and cos. -/
theorem function_space_label_results :
    ∀ (D : Type) [Add D] [Mul D] [Neg D] [Zero D] (toStr : D → String)
      (sinEval cosEval : D → D),
      ((FunctionVectorSpace D toStr).addition
          (sin_function sinEval) (cos_function cosEval)).symbolic_identity =
        "(sin + cos)" ∧
      ((FunctionVectorSpace D toStr).negation
          (cos_function cosEval)).symbolic_identity = "(-cos)" ∧
      (FunctionVectorSpace D toStr).equality
          ((FunctionVectorSpace D toStr).addition
              (sin_function sinEval) (cos_function cosEval))
          ((FunctionVectorSpace D toStr).addition
              (sin_function sinEval) (cos_function cosEval)) = true ∧
      (FunctionVectorSpace D toStr).equality
          (sin_function sinEval) (cos_function cosEval) = false := by
  intro D _ _ _ _ toStr sinEval cosEval
  refine ⟨rfl, rfl, ?_, ?_⟩
  · show ("(sin + cos)" == "(sin + cos)") = true
    decide
  · show ("sin" == "cos") = false
    decide

/-! ## Shape level: the concept checks and the definition-time rejections -/

/-- A reified C++ type: its name (type identity; distinct types carry
distinct names), which binary operators it offers and the name of each
result type, whether its comparisons yield something convertible to `bool`,
and the names of the types it implicitly converts to. -/
structure TypeDesc where
  name : String
  addResult : Option String
  subResult : Option String
  mulResult : Option String
  divResult : Option String
  eqToBool : Bool
  ltToBool : Bool
  leToBool : Bool
  conversions : List String
deriving DecidableEq

/-- A reified operation functor: whether it is default-initializable, the
parameter-type names of its call signature, and the descriptor of its
invocation result. -/
structure OpDesc where
  def_init : Bool
  params : List String
  result : TypeDesc
deriving DecidableEq

/-- `std::convertible_to`: a type converts to a target name when it is that
type or records an implicit conversion to it. -/
def convertibleToName (t : TypeDesc) (target : String) : Bool :=
  t.name == target || t.conversions.contains target

/-- The `FieldLike` concept (core_concepts.hpp, lines 44-52): `+ - * /`
each closed on the type itself, and `==` convertible to `bool`. -/
def FieldLike (t : TypeDesc) : Bool :=
  (t.addResult == some t.name) && (t.subResult == some t.name) &&
  (t.mulResult == some t.name) && (t.divResult == some t.name) && t.eqToBool

/-- The `OrderedMeasure` concept (core_concepts.hpp, lines 81-88): `+`
closed on the type itself, and `==`, `<`, `<=` convertible to `bool`. -/
def OrderedMeasure (t : TypeDesc) : Bool :=
  (t.addResult == some t.name) && t.eqToBool && t.ltToBool && t.leToBool

/-- The `CallableLike` concept (core_concepts.hpp, lines 117-120):
invocable with the given argument types (exact reified-signature match) with
result convertible to the required return-type name. -/
def CallableLike (f : OpDesc) (ret : String) (args : List String) : Bool :=
  (f.params == args) && convertibleToName f.result ret

/-- The exposed member surface of a composed (or independently-authored)
structure: which member type names it has, which of the five operation
holders and the norm it exposes, and the call signatures of its
`difference` and `distance` entry points when present, each recorded as
(left parameter, right parameter, result) type names. The `author` field
carries the provenance of the type and plays no part in any check. -/
structure StructShape where
  author : String
  element_type : Option TypeDesc
  scalar_type : Option TypeDesc
  measure_type : Option TypeDesc
  has_addition : Bool
  has_scalar_action : Bool
  has_negation : Bool
  has_zero_supplier : Bool
  has_equality : Bool
  has_norm : Bool
  difference_sig : Option (String × String × String)
  distance_sig : Option (String × String × String)
deriving DecidableEq

/-- The `VectorSpaceLike` concept (vector_space.hpp, lines 170-182): member
types `element_type` and `scalar_type`, the five operation holders, and a
`difference` entry point invocable with two elements whose result is the
same type as the element (`std::same_as`). -/
def VectorSpaceLike (s : StructShape) : Bool :=
  match s.element_type, s.scalar_type, s.difference_sig with
  | some e, some _, some (pl, pr, r) =>
      s.has_addition && s.has_scalar_action && s.has_negation &&
      s.has_zero_supplier && s.has_equality &&
      (pl == e.name) && (pr == e.name) && (r == e.name)
  | _, _, _ => false

/-- The `MetricSpaceLike` concept (metric_space.hpp, lines 118-125): member
types `element_type` and `measure_type`, and a `distance` entry point
invocable with two elements whose result is the same type as the measure. -/
def MetricSpaceLike (s : StructShape) : Bool :=
  match s.element_type, s.measure_type, s.distance_sig with
  | some e, some m, some (pl, pr, r) =>
      (pl == e.name) && (pr == e.name) && (r == m.name)
  | _, _, _ => false

/-- Instantiation of the `VectorSpace` template (vector_space.hpp, lines
93-151): the scalar must be `FieldLike`, every functor
default-initializable and `CallableLike` at its required signature
(`Equality` returning `bool`). On success the composed structure exposes
both member types, the five holders, and the derived `difference` from two
elements to the element type; on failure no structure exists. -/
def composeVectorSpace (elem scalar : TypeDesc)
    (add sact neg zero eq : OpDesc) : Option StructShape :=
  if FieldLike scalar &&
     add.def_init && sact.def_init && neg.def_init &&
     zero.def_init && eq.def_init &&
     CallableLike add elem.name [elem.name, elem.name] &&
     CallableLike sact elem.name [scalar.name, elem.name] &&
     CallableLike neg elem.name [elem.name] &&
     CallableLike zero elem.name [] &&
     CallableLike eq "bool" [elem.name, elem.name]
  then some
    { author := "VectorSpace"
      element_type := some elem
      scalar_type := some scalar
      measure_type := none
      has_addition := true
      has_scalar_action := true
      has_negation := true
      has_zero_supplier := true
      has_equality := true
      has_norm := false
      difference_sig := some (elem.name, elem.name, elem.name)
      distance_sig := none }
  else none

/-- Instantiation of the `MetricSpace` template (metric_space.hpp, lines
68-100): the distance functor must be default-initializable and invocable
with two elements (`std::invoke_result_t` is ill-formed otherwise), and its
result type must satisfy `OrderedMeasure`. On success the composed
structure exposes `element_type`, `measure_type` (the invocation result)
and a `distance` entry point from two elements to the measure type. -/
def composeMetricSpace (elem : TypeDesc) (dist : OpDesc) :
    Option StructShape :=
  if dist.def_init && (dist.params == [elem.name, elem.name]) &&
     OrderedMeasure dist.result
  then some
    { author := "MetricSpace"
      element_type := some elem
      scalar_type := none
      measure_type := some dist.result
      has_addition := false
      has_scalar_action := false
      has_negation := false
      has_zero_supplier := false
      has_equality := false
      has_norm := false
      difference_sig := none
      distance_sig := some (elem.name, elem.name, dist.result.name) }
  else none

/-- The `InducedDistance` member functor of `NormedSpace` (normed_space.hpp,
lines 111-123), reified: nullary-constructible, invocable with two elements,
returning the norm's result type. -/
def inducedDistanceOp (elem : TypeDesc) (norm : OpDesc) : OpDesc :=
  { def_init := true
    params := [elem.name, elem.name]
    result := norm.result }

/-- The internal `metric_space` member type of `NormedSpace`
(normed_space.hpp, line 126): the MetricSpace instantiated at the element
type and the induced distance functor. -/
def normedInternalMetric (vs : StructShape) (norm : OpDesc) :
    Option StructShape :=
  match vs.element_type with
  | none => none
  | some elem => composeMetricSpace elem (inducedDistanceOp elem norm)

/-- Instantiation of the `NormedSpace` template (normed_space.hpp, lines
89-147): the base must satisfy `VectorSpaceLike`, the norm functor must be
default-initializable and invocable with one element, and its result type
must satisfy `OrderedMeasure`. On success the composed structure inherits
every member of the base, shadows `measure_type` with the norm's result
type, adds the norm holder, and exposes `distance` with the signature of
the internal metric structure's entry point. -/
def composeNormedSpace (vs : StructShape) (norm : OpDesc) :
    Option StructShape :=
  match vs.element_type with
  | none => none
  | some elem =>
    if VectorSpaceLike vs && norm.def_init &&
       (norm.params == [elem.name]) && OrderedMeasure norm.result
    then
      (composeMetricSpace elem (inducedDistanceOp elem norm)).map fun ms =>
        { vs with
          author := "NormedSpace"
          measure_type := some norm.result
          has_norm := true
          distance_sig := ms.distance_sig }
    else none

/-- Success shape of the internal metric instantiation: for any element
descriptor and any norm whose result satisfies `OrderedMeasure`, the
`MetricSpace` built from the induced distance functor is well-formed. -/
theorem composeMetricSpace_induced (elem : TypeDesc) (norm : OpDesc)
    (h : OrderedMeasure norm.result = true) :
    composeMetricSpace elem (inducedDistanceOp elem norm) = some
      { author := "MetricSpace"
        element_type := some elem
        scalar_type := none
        measure_type := some norm.result
        has_addition := false
        has_scalar_action := false
        has_negation := false
        has_zero_supplier := false
        has_equality := false
        has_norm := false
        difference_sig := none
        distance_sig := some (elem.name, elem.name, norm.result.name) } := by
  simp [composeMetricSpace, inducedDistanceOp, h]

/-- The `VectorSpaceLike` check never reads the fields a `NormedSpace`
instantiation shadows or adds (author, measure type, norm holder, distance
signature). -/
theorem VectorSpaceLike_update (vs : StructShape) (a : String)
    (mt : Option TypeDesc) (hn : Bool)
    (ds : Option (String × String × String)) :
    VectorSpaceLike { vs with author := a, measure_type := mt,
                              has_norm := hn, distance_sig := ds } =
      VectorSpaceLike vs := by
  cases vs
  rfl

/-- Destruction of a successful `NormedSpace` instantiation: the checks the
`requires` clause imposed, and the exact member surface of the output. -/
theorem composeNormedSpace_some_elim {vs : StructShape} {norm : OpDesc}
    {ns : StructShape} (h : composeNormedSpace vs norm = some ns) :
    ∃ elem, vs.element_type = some elem ∧
      VectorSpaceLike vs = true ∧ norm.def_init = true ∧
      norm.params = [elem.name] ∧ OrderedMeasure norm.result = true ∧
      ns = { vs with author := "NormedSpace"
                     measure_type := some norm.result
                     has_norm := true
                     distance_sig :=
                       some (elem.name, elem.name, norm.result.name) } := by
  unfold composeNormedSpace at h
  cases he : vs.element_type with
  | none =>
    simp only [he] at h
    exact Option.noConfusion h
  | some elem =>
    simp only [he] at h
    by_cases hc : (VectorSpaceLike vs && norm.def_init &&
        (norm.params == [elem.name]) && OrderedMeasure norm.result) = true
    · have hc2 := hc
      simp only [Bool.and_eq_true] at hc2
      obtain ⟨⟨⟨hv, hd⟩, hp⟩, ho⟩ := hc2
      rw [if_pos hc, composeMetricSpace_induced elem norm ho,
        Option.map_some'] at h
      exact ⟨elem, rfl, hv, hd, beq_iff_eq.mp hp, ho,
        (Option.some.inj h).symm⟩
    · rw [if_neg hc] at h
      cases h

/-- Construction of a successful `NormedSpace` instantiation from the
checks the `requires` clause imposes. -/
theorem composeNormedSpace_some_intro (vs : StructShape) (norm : OpDesc)
    (elem : TypeDesc) (he : vs.element_type = some elem)
    (hv : VectorSpaceLike vs = true) (hd : norm.def_init = true)
    (hp : norm.params = [elem.name])
    (ho : OrderedMeasure norm.result = true) :
    composeNormedSpace vs norm = some
      { vs with author := "NormedSpace"
                measure_type := some norm.result
                has_norm := true
                distance_sig :=
                  some (elem.name, elem.name, norm.result.name) } := by
  unfold composeNormedSpace
  simp only [he]
  rw [composeMetricSpace_induced elem norm ho, Option.map_some']
  simp [hv, hd, hp, ho]

/-- Claim C4: composition rejects malformed inputs at definition time,
producing no structure: a scalar lacking division fails the field-like
check and thus VectorSpace composition; a distance operation whose return
type fails the ordered-measure shape fails MetricSpace composition; an
addition operation not invocable with two element arguments fails
VectorSpace composition. -/
theorem composition_rejects_malformed :
    (∀ (elem scalar : TypeDesc) (add sact neg zero eq : OpDesc),
        scalar.divResult = none →
        FieldLike scalar = false ∧
        composeVectorSpace elem scalar add sact neg zero eq = none) ∧
    (∀ (elem : TypeDesc) (dist : OpDesc),
        OrderedMeasure dist.result = false →
        composeMetricSpace elem dist = none) ∧
    (∀ (elem scalar : TypeDesc) (add sact neg zero eq : OpDesc),
        add.params ≠ [elem.name, elem.name] →
        composeVectorSpace elem scalar add sact neg zero eq = none) := by
  refine ⟨?_, ?_, ?_⟩
  · intro elem scalar add sact neg zero eq h
    have hf : FieldLike scalar = false := by
      rw [Bool.eq_false_iff]
      intro hT
      unfold FieldLike at hT
      simp only [Bool.and_eq_true, beq_iff_eq] at hT
      obtain ⟨⟨⟨⟨-, -⟩, -⟩, hdiv⟩, -⟩ := hT
      rw [h] at hdiv
      cases hdiv
    refine ⟨hf, ?_⟩
    unfold composeVectorSpace
    rw [hf]
    simp
  · intro elem dist h
    unfold composeMetricSpace
    rw [h]
    simp
  · intro elem scalar add sact neg zero eq h
    have hcall : CallableLike add elem.name [elem.name, elem.name] = false := by
      unfold CallableLike
      rw [beq_eq_false_iff_ne.mpr h, Bool.false_and]
    unfold composeVectorSpace
    rw [hcall]
    simp

/-- The spec's reading of the vector-space structural-role check, stated
independently of the reified concept: member type names for element and
scalar, the five named operation holders, and a `difference` entry point
taking two elements and returning exactly the element type. -/
def VectorSpaceLikeSpec (s : StructShape) : Prop :=
  (∃ e, s.element_type = some e ∧
        s.difference_sig = some (e.name, e.name, e.name)) ∧
  s.scalar_type.isSome = true ∧
  s.has_addition = true ∧ s.has_scalar_action = true ∧
  s.has_negation = true ∧ s.has_zero_supplier = true ∧
  s.has_equality = true

/-- Claim C5: a type passes the vector-space structural-role check iff it
has the described shape; the check reads only the type's shape, never its
provenance, so repeated checks agree and independently-authored types with
this shape are all accepted. -/
theorem vector_space_like_iff_shape :
    (∀ s : StructShape, VectorSpaceLike s = true ↔ VectorSpaceLikeSpec s) ∧
    (∀ (s : StructShape) (a : String),
        VectorSpaceLike { s with author := a } = VectorSpaceLike s) := by
  constructor
  · intro s
    rcases s with ⟨auth, et, st, mt, ha, hs, hn, hz, heq, hno, df, dt⟩
    unfold VectorSpaceLike VectorSpaceLikeSpec
    cases et with
    | none => simp
    | some e =>
      cases st with
      | none => simp
      | some sc =>
        cases df with
        | none => simp
        | some sig =>
          rcases sig with ⟨pl, pr, r⟩
          simp only [Bool.and_eq_true, beq_iff_eq, Option.some.injEq,
            Prod.mk.injEq, Option.isSome_some]
          constructor
          · rintro ⟨⟨⟨⟨⟨⟨⟨h1, h2⟩, h3⟩, h4⟩, h5⟩, h6⟩, h7⟩, h8⟩
            exact ⟨⟨e, rfl, h6, h7, h8⟩, trivial, h1, h2, h3, h4, h5⟩
          · rintro ⟨⟨e2, he2, h6, h7, h8⟩, -, h1, h2, h3, h4, h5⟩
            cases he2
            exact ⟨⟨⟨⟨⟨⟨⟨h1, h2⟩, h3⟩, h4⟩, h5⟩, h6⟩, h7⟩, h8⟩
  · intro s a
    cases s
    rfl

/-- Claim C9: every successfully composed NormedSpace itself passes the
vector-space structural-role check, and can feed a further NormedSpace
composition: any norm accepted over the input structure is accepted over
the output structure. -/
theorem normed_space_output_vector_space_like :
    ∀ (vs : StructShape) (norm : OpDesc) (ns : StructShape),
      composeNormedSpace vs norm = some ns →
      VectorSpaceLike ns = true ∧
      ∀ norm2 : OpDesc, (composeNormedSpace vs norm2).isSome →
        (composeNormedSpace ns norm2).isSome := by
  intro vs norm ns h
  obtain ⟨elem, he, hv, -, -, -, hns⟩ := composeNormedSpace_some_elim h
  have hnse : ns.element_type = some elem := by rw [hns]; exact he
  have hnsv : VectorSpaceLike ns = true := by
    rw [hns, VectorSpaceLike_update]; exact hv
  refine ⟨hnsv, ?_⟩
  intro norm2 h2
  rw [Option.isSome_iff_exists] at h2
  obtain ⟨ns2, h2⟩ := h2
  obtain ⟨elem2, he2, -, hd2, hp2, ho2, -⟩ := composeNormedSpace_some_elim h2
  rw [he] at he2
  cases Option.some.inj he2
  rw [composeNormedSpace_some_intro ns norm2 elem hnse hnsv hd2 hp2 ho2]
  rfl

/-- Claim C10: every successfully composed NormedSpace itself passes the
metric-space structural-role check, and its measure type is identical to
the measure type of the internal metric structure it derives. -/
theorem normed_space_output_metric_space_like :
    ∀ (vs : StructShape) (norm : OpDesc) (ns : StructShape),
      composeNormedSpace vs norm = some ns →
      MetricSpaceLike ns = true ∧
      ∃ ims, normedInternalMetric vs norm = some ims ∧
        ns.measure_type = ims.measure_type := by
  intro vs norm ns h
  obtain ⟨elem, he, -, -, -, ho, hns⟩ := composeNormedSpace_some_elim h
  have him : normedInternalMetric vs norm = some
      { author := "MetricSpace"
        element_type := some elem
        scalar_type := none
        measure_type := some norm.result
        has_addition := false
        has_scalar_action := false
        has_negation := false
        has_zero_supplier := false
        has_equality := false
        has_norm := false
        difference_sig := none
        distance_sig := some (elem.name, elem.name, norm.result.name) } := by
    unfold normedInternalMetric
    simp only [he]
    exact composeMetricSpace_induced elem norm ho
  constructor
  · rw [hns]
    simp [MetricSpaceLike, he]
  · exact ⟨_, him, by rw [hns]⟩

/-! ## Concrete reified descriptors, used to exercise the composers -/

/-- The reified `double` type: a field-like ordered measure. -/
def doubleDesc : TypeDesc :=
  { name := "double", addResult := some "double", subResult := some "double"
    mulResult := some "double", divResult := some "double"
    eqToBool := true, ltToBool := true, leToBool := true, conversions := [] }

/-- The reified `bool` type (arithmetic on `bool` promotes to `int`). -/
def boolDesc : TypeDesc :=
  { name := "bool", addResult := some "int", subResult := some "int"
    mulResult := some "int", divResult := some "int"
    eqToBool := true, ltToBool := true, leToBool := true
    conversions := ["int"] }

/-- The reified `std::string` type: `+` concatenates but there is no
division, so it cannot serve as a scalar. -/
def stringDesc : TypeDesc :=
  { name := "std::string", addResult := some "std::string", subResult := none
    mulResult := none, divResult := none
    eqToBool := true, ltToBool := true, leToBool := true, conversions := [] }

/-- The reified `RealFunctionElement` type of the example client: no
operators of its own. -/
def funcElemDesc : TypeDesc :=
  { name := "RealFunctionElement", addResult := none, subResult := none
    mulResult := none, divResult := none
    eqToBool := false, ltToBool := false, leToBool := false
    conversions := [] }

/-- The reified `FunctionAddition` functor. -/
def funcAddOp : OpDesc :=
  { def_init := true
    params := ["RealFunctionElement", "RealFunctionElement"]
    result := funcElemDesc }

/-- The reified `FunctionScalarAction` functor. -/
def funcSactOp : OpDesc :=
  { def_init := true
    params := ["double", "RealFunctionElement"]
    result := funcElemDesc }

/-- The reified `FunctionNegation` functor. -/
def funcNegOp : OpDesc :=
  { def_init := true
    params := ["RealFunctionElement"]
    result := funcElemDesc }

/-- The reified `FunctionZeroSupplier` functor. -/
def funcZeroOp : OpDesc :=
  { def_init := true, params := [], result := funcElemDesc }

/-- The reified `FunctionEquality` functor. -/
def funcEqOp : OpDesc :=
  { def_init := true
    params := ["RealFunctionElement", "RealFunctionElement"]
    result := boolDesc }

/-- The reified `SupNormPlaceholder` functor. -/
def supNormOp : OpDesc :=
  { def_init := true
    params := ["RealFunctionElement"]
    result := doubleDesc }

/-- A distance functor returning `RealFunctionElement`, which fails the
ordered-measure shape. -/
def badDistanceOp : OpDesc :=
  { def_init := true
    params := ["RealFunctionElement", "RealFunctionElement"]
    result := funcElemDesc }

/-- An addition functor of the wrong arity: invocable with one element
only. -/
def unaryAdditionOp : OpDesc :=
  { def_init := true
    params := ["RealFunctionElement"]
    result := funcElemDesc }

/-- The member surface of `FunctionVectorSpace`, the example's VectorSpace
instantiation. -/
def exampleVectorSpaceShape : StructShape :=
  { author := "VectorSpace"
    element_type := some funcElemDesc
    scalar_type := some doubleDesc
    measure_type := none
    has_addition := true
    has_scalar_action := true
    has_negation := true
    has_zero_supplier := true
    has_equality := true
    has_norm := false
    difference_sig :=
      some ("RealFunctionElement", "RealFunctionElement", "RealFunctionElement")
    distance_sig := none }

/-- The member surface of `FunctionSupNormedSpace`, the example's
NormedSpace instantiation. -/
def exampleNormedShape : StructShape :=
  { exampleVectorSpaceShape with
    author := "NormedSpace"
    measure_type := some doubleDesc
    has_norm := true
    distance_sig :=
      some ("RealFunctionElement", "RealFunctionElement", "double") }

/-- The example's VectorSpace instantiation succeeds and exposes exactly
the recorded member surface. -/
theorem composeVectorSpace_example :
    composeVectorSpace funcElemDesc doubleDesc
      funcAddOp funcSactOp funcNegOp funcZeroOp funcEqOp =
      some exampleVectorSpaceShape := by decide

/-- The example's NormedSpace instantiation succeeds and exposes exactly
the recorded member surface. -/
theorem composeNormedSpace_example :
    composeNormedSpace exampleVectorSpaceShape supNormOp =
      some exampleNormedShape := by decide

/-- Claim C4 at concrete inputs: the three malformed configurations are
rejected, producing no structure. -/
theorem composition_rejects_malformed_examples :
    (FieldLike stringDesc = false ∧
     composeVectorSpace funcElemDesc stringDesc
       funcAddOp funcSactOp funcNegOp funcZeroOp funcEqOp = none) ∧
    composeMetricSpace funcElemDesc badDistanceOp = none ∧
    composeVectorSpace funcElemDesc doubleDesc
      unaryAdditionOp funcSactOp funcNegOp funcZeroOp funcEqOp = none :=
  ⟨composition_rejects_malformed.1 funcElemDesc stringDesc
      funcAddOp funcSactOp funcNegOp funcZeroOp funcEqOp rfl,
   composition_rejects_malformed.2.1 funcElemDesc badDistanceOp (by decide),
   composition_rejects_malformed.2.2 funcElemDesc doubleDesc
      unaryAdditionOp funcSactOp funcNegOp funcZeroOp funcEqOp (by decide)⟩

/-- Claim C5 at a concrete input: the example's VectorSpace shape is
accepted, its spec-side shape description holds, and reauthoring it leaves
the verdict unchanged. -/
theorem vector_space_like_shape_example :
    VectorSpaceLikeSpec exampleVectorSpaceShape ∧
    VectorSpaceLike
        { exampleVectorSpaceShape with author := "UserAuthored" } =
      VectorSpaceLike exampleVectorSpaceShape :=
  ⟨(vector_space_like_iff_shape.1 exampleVectorSpaceShape).mp (by decide),
   vector_space_like_iff_shape.2 exampleVectorSpaceShape "UserAuthored"⟩

/-- Claim C9 at a concrete input: the example's composed NormedSpace is
vector-space-like and accepts a further norm whenever the underlying
VectorSpace does. -/
theorem normed_output_vector_space_like_example :
    VectorSpaceLike exampleNormedShape = true ∧
    ∀ norm2 : OpDesc,
      (composeNormedSpace exampleVectorSpaceShape norm2).isSome →
      (composeNormedSpace exampleNormedShape norm2).isSome :=
  normed_space_output_vector_space_like
    exampleVectorSpaceShape supNormOp exampleNormedShape (by decide)

/-- Claim C10 at a concrete input: the example's composed NormedSpace is
metric-space-like and shares its measure type with its internal metric
structure. -/
theorem normed_output_metric_space_like_example :
    MetricSpaceLike exampleNormedShape = true ∧
    ∃ ims, normedInternalMetric exampleVectorSpaceShape supNormOp = some ims ∧
      exampleNormedShape.measure_type = ims.measure_type :=
  normed_space_output_metric_space_like
    exampleVectorSpaceShape supNormOp exampleNormedShape (by decide)

end Kuukan
